import Mathlib

/-!
Verification development for the Property-Data-Scraper repository.

The definitions below are a shallow embedding of the generic crawl engine in
`property_data_puller/property_listings_puller.py` (class `PropertyListingsPuller`),
of the URL resolver `convert_relative_url` shared with `data/pull_listings.py`,
of the column-ordering check in `property_web_scraper/olx/olx_listings_puller.py`
(`OlxListingsPuller.process_data`), and of the overwrite/append confirmation
prompts in `data/pull_listings.py` (class `PullPropertyListings`).

Network access, HTML parsing and the site-specific hook methods
(`get_listings_list`, `get_listing_preview_data`, `get_listing_url`,
`get_listing_details`) are modelled as oracles supplied to the crawl loop:
the loop only observes their results (a value or a raised exception), so the
embedding passes those results in as data.  Side effects (writes to `log.txt`,
CSV writes through `DataFrame.to_csv`, interactive `input()` prompts, file
removal) are recorded as an event trace.
-/

/-- Python exceptions distinguished by the engine's `except` clauses. -/
inductive PyError where
  /-- `NotImplementedError`, raised by the base-class hook methods. -/
  | notImplemented : PyError
  /-- `AttributeError`, raised when a BeautifulSoup `find` chain hits `None`. -/
  | attrErr : PyError
  /-- `ValueError msg`, raised by `convert_relative_url` for off-site URLs. -/
  | valueErr : String → PyError
  /-- `RuntimeError msg`, raised by `OlxListingsPuller.process_data`. -/
  | runtimeErr : String → PyError
  /-- `UnboundLocalError` on the named local variable. -/
  | unboundLocal : String → PyError
  /-- Any other exception, carrying `str(err)`. -/
  | other : String → PyError
deriving Repr, DecidableEq

/-- A Python dict with string keys.  Values are `Option String`: `none` models
the Python value `None` (e.g. `listing_data["URL"] = None`), `some s` models a
scalar rendered as the string `s`.  Keys are unique because `dset` updates in
place. -/
abbrev PyDict := List (String × Option String)

/-- Python dict assignment `d[k] = v`: update the existing key in place,
otherwise append the new key at the end (insertion order). -/
def dset (d : PyDict) (k : String) (v : Option String) : PyDict :=
  if d.any (fun p => p.1 = k) then
    d.map (fun p => if p.1 = k then (k, v) else p)
  else
    d ++ [(k, v)]

/-- Python dict lookup `d.get(k)`: `none` when the key is absent. -/
def dget (d : PyDict) (k : String) : Option (Option String) :=
  (d.find? (fun p => p.1 = k)).map (fun p => p.2)

/-- Python dict merge `\x7b**d, **fields\x7d` where `fields` is a dict of scalar
values (the result of an extraction hook). -/
def dmergeFields (d : PyDict) (fields : List (String × String)) : PyDict :=
  fields.foldl (fun acc p => dset acc p.1 (some p.2)) d

/-- Build a Python dict from extracted fields, starting from the empty dict. -/
def fieldsToDict (fields : List (String × String)) : PyDict :=
  dmergeFields [] fields

/-!
## Model of `urllib.parse.urlparse(url).hostname`

`convert_relative_url` only consults the `hostname` attribute of the parse
result, so only the scheme/netloc/host part of `urlparse` is embedded:
scheme stripping, the `//`-prefixed netloc, userinfo (`@`), the bracketed
IPv6 form and the port separator, and the final lowercasing with
empty-host-to-`None`.
-/

/-- Characters allowed in a URL scheme (`scheme_chars` in `urllib.parse`). -/
def isSchemeChar (c : Char) : Bool :=
  c.isAlpha || c.isDigit || c = '+' || c = '-' || c = '.'

/-- Strip a leading `scheme:` from the URL, as `urlsplit` does: there must be
a colon at position `i > 0`, the first character must be a letter, and every
character before the colon must be a scheme character. -/
def removeScheme (cs : List Char) : List Char :=
  let before := cs.takeWhile (fun c => c ≠ ':')
  if before.length < cs.length ∧ before.length > 0 ∧
      cs.head?.any Char.isAlpha ∧ before.all isSchemeChar then
    cs.drop (before.length + 1)
  else
    cs

/-- The netloc of a URL whose remainder (after the scheme) starts with `//`:
everything up to the first `/`, `?` or `#`. -/
def netlocOf (rest : List Char) : List Char :=
  (rest.drop 2).takeWhile (fun c => c ≠ '/' ∧ c ≠ '?' ∧ c ≠ '#')

/-- The part of the netloc after the last `@` (drop userinfo), as in
`netloc.rpartition('@')`. -/
def afterLastAt (cs : List Char) : List Char :=
  ((cs.reverse).takeWhile (fun c => c ≠ '@')).reverse

/-- Extract the host from the netloc: after userinfo, a bracketed IPv6 host is
everything between `[` and `]`, otherwise everything before the first `:`. -/
def hostOfNetloc (netloc : List Char) : List Char :=
  let hostinfo := afterLastAt netloc
  if hostinfo.contains '[' then
    ((hostinfo.dropWhile (fun c => c ≠ '[')).drop 1).takeWhile (fun c => c ≠ ']')
  else
    hostinfo.takeWhile (fun c => c ≠ ':')

/-- Model of `urlparse(url).hostname`: `none` when the URL has no `//` netloc
or the extracted host is empty, otherwise the lowercased host. -/
def urlparseHostname (url : String) : Option String :=
  let rest := removeScheme url.data
  match rest with
  | '/' :: '/' :: _ =>
      let host := hostOfNetloc (netlocOf rest)
      if host.isEmpty then none
      else some (String.mk (host.map Char.toLower))
  | _ => none

/-- Model of `PropertyListingsPuller.convert_relative_url` (also verbatim in
`PullPropertyListings.convert_relative_url`).  The argument is `none` when
`get_listing_url` returned Python `None`.  Returns `Except` because an
off-site URL raises `ValueError`. -/
def convert_relative_url (root_url : String) (url : Option String) :
    Except PyError (Option String) :=
  match url with
  | none => Except.ok none
  | some u =>
      if u = "" then Except.ok none
      else
        match urlparseHostname u with
        | none => Except.ok (some (root_url ++ u))
        | some h =>
            if urlparseHostname root_url = some h then Except.ok (some u)
            else Except.error (PyError.valueErr ("URL does not match site URL: " ++ u))

/-!
## Model of `PropertyListingsPuller.pull_listings`

The loop in `pull_listings` (lines 68-148) is embedded as a fueled recursion.
The site hooks and the network are oracles:

* `pages : Nat → PageInput` gives, per page number, the outcome of the
  listings-page fetch (`requests.get` + `get_listings_list` + redirect
  history); the listings-page URL is a bijective function of the page number
  (`root_url/slug?page_param=n`), so the oracle is keyed by the number.
* `fetch : String → Nat → Except PyError (List (String × String))` gives the
  outcome of one detail-page attempt (`requests.get` + `BeautifulSoup` +
  `get_listing_details`) for a URL and a 1-based attempt index.  It is keyed
  by the URL string because the code requests whatever string the local
  variable `single_listing_url` currently holds.

The locals `single_listing_url` and `single_listing_info` of the Python
function live across loop iterations; `LoopVars` threads them explicitly,
with `none` standing for "not yet bound" (reading it raises
`UnboundLocalError`).
-/

deriving instance DecidableEq for Except

/-- Constructor arguments of `PropertyListingsPuller.__init__` used by the loop. -/
structure PullerConfig where
  root_url : String
  page_param : String
  data_columns : List String
deriving Repr, DecidableEq

/-- Keyword arguments of `pull_listings`. -/
structure PullOptions where
  get_listing_previews : Bool := true
  get_listing_pages : Bool := true
  page_start : Nat := 1
  page_end : Option Nat := none
deriving Repr, DecidableEq

/-- Oracle results for one listing fragment on a listings page:
the outcome of `get_listing_preview_data` and of `get_listing_url`
(`Except.ok none` models a Python `None` return). -/
structure ListingInput where
  previewResult : Except PyError (List (String × String))
  urlResult : Except PyError (Option String)
deriving Repr, DecidableEq

/-- Oracle results for one listings-page fetch: whether `requests.get` raised
`ChunkedEncodingError`, the outcome of `get_listings_list`, and the status
code of the first redirect in `listings_page.history` (if any). -/
structure PageInput where
  fetchChunkedError : Bool := false
  listingsResult : Except PyError (List ListingInput)
  redirect : Option Nat := none
deriving Repr, DecidableEq

/-- Observable side effects of the crawl. -/
inductive Event where
  /-- Appending a message to the error log `log.txt`. -/
  | logWrite : String → Event
  /-- One `DataFrame.to_csv` call: file mode, header flag, the column layout
  passed to `reindex`, and the page batch of listing dicts.  The rows that
  reach the file are `batch.map (renderRow columns)`. -/
  | csvWrite : Char → Bool → List String → List PyDict → Event
  /-- An interactive `input()` confirmation prompt. -/
  | prompt : String → Event
  /-- Removal of the destination file (`os.remove`). -/
  | removeFile : Event
deriving Repr, DecidableEq

/-- How a crawl run ends. -/
inductive Outcome where
  /-- The `while True` loop was left by `break` or by reaching `page_end`. -/
  | finished : Outcome
  /-- An uncaught exception propagated out of `pull_listings`. -/
  | crashed : PyError → Outcome
  /-- Out of fuel (the unbounded loop was not observed to its end). -/
  | fuelOut : Outcome
deriving Repr, DecidableEq

/-- The locals of `pull_listings` that survive across listing iterations.
`none` means the variable is not bound yet. -/
structure LoopVars where
  single_listing_url : Option (Option String) := none
  single_listing_info : Option (List (String × String)) := none
deriving Repr, DecidableEq

/-- The column layout handed to `reindex` at line 141:
`self.data_columns + ["Page", "URL"]`. -/
def outputColumns (cfg : PullerConfig) : List String :=
  cfg.data_columns ++ ["Page", "URL"]

/-- The row that `to_csv` writes for one listing dict after
`reindex(columns=...)`: one entry per column, in column order; a column
absent from the dict (reindex fills `NaN`) or holding Python `None` is
rendered as the empty string. -/
def renderRow (columns : List String) (d : PyDict) : List String :=
  columns.map (fun c =>
    match dget d c with
    | some (some v) => v
    | _ => "")

/-- Python `str(err)` for the modelled exceptions. -/
def pyErrStr : PyError → String
  | PyError.notImplemented => ""
  | PyError.attrErr => ""
  | PyError.valueErr m => m
  | PyError.runtimeErr m => m
  | PyError.unboundLocal v => v
  | PyError.other m => m

/-- The message appended to `log.txt` for one failed detail attempt
(line 123). -/
def skipLogMessage (url : String) (e : PyError) : String :=
  "\nSkipping listing due to error: " ++ url ++ "\n" ++ pyErrStr e

/-- The bounded retry loop of lines 115-128: up to `remaining` attempts,
stopping at the first success; every failed attempt appends to the error
log.  Returns the log events and the extracted fields of the first
successful attempt (`none` if every attempt failed). -/
def detailRetry (fetch : String → Nat → Except PyError (List (String × String)))
    (url : String) (attempt : Nat) (remaining : Nat) :
    List Event × Option (List (String × String)) :=
  match remaining with
  | 0 => ([], none)
  | Nat.succ r =>
      match fetch url attempt with
      | Except.ok fields => ([], some fields)
      | Except.error e =>
          let rest := detailRetry fetch url (attempt + 1) r
          (Event.logWrite (skipLogMessage url e) :: rest.1, rest.2)

/-- Lines 96-101: preview extraction.  `Except.ok none` models `continue`
(the listing is skipped); only `NotImplementedError` is caught, any other
exception propagates. -/
def previewPhase (opts : PullOptions) (li : ListingInput) :
    Except PyError (Option PyDict) :=
  if opts.get_listing_previews then
    match li.previewResult with
    | Except.ok fields => Except.ok (some (fieldsToDict fields))
    | Except.error PyError.notImplemented => Except.ok none
    | Except.error e => Except.error e
  else Except.ok (some [])

/-- Lines 103-111: set `listing_data["Page"]`, then try to resolve the
listing URL.  Any exception from `get_listing_url` or `convert_relative_url`
is caught (only printed); note that when `convert_relative_url` raises, the
local `single_listing_url` keeps the unresolved candidate URL. -/
def urlPhase (cfg : PullerConfig) (pageNumber : Nat) (li : ListingInput)
    (d : PyDict) (vars : LoopVars) : PyDict × LoopVars :=
  let d := dset d ("Page") (some (toString pageNumber))
  match li.urlResult with
  | Except.error _ => (d, vars)
  | Except.ok u =>
      let vars := { vars with single_listing_url := some u }
      match convert_relative_url cfg.root_url u with
      | Except.error _ => (d, vars)
      | Except.ok r =>
          (dset d ("URL") r, { vars with single_listing_url := some r })

/-- Lines 113-129: the detail-page step.  Reading an unbound local raises
`UnboundLocalError`; a falsy `single_listing_url` (Python `None` or the empty
string) skips the block; otherwise the retry loop runs and line 129 merges
whatever `single_listing_info` currently holds into the listing dict — the
stale value of a previous listing when every attempt failed. -/
def detailPhase (opts : PullOptions)
    (fetch : String → Nat → Except PyError (List (String × String)))
    (d : PyDict) (vars : LoopVars) :
    LoopVars × List Event × Except PyError PyDict :=
  if opts.get_listing_pages then
    match vars.single_listing_url with
    | none => (vars, [], Except.error (PyError.unboundLocal ("single_listing_url")))
    | some none => (vars, [], Except.ok d)
    | some (some url) =>
        if url.isEmpty then (vars, [], Except.ok d)
        else
          let res := detailRetry fetch url 1 20
          let vars :=
            match res.2 with
            | some fields => { vars with single_listing_info := some fields }
            | none => vars
          match vars.single_listing_info with
          | none => (vars, res.1, Except.error (PyError.unboundLocal ("single_listing_info")))
          | some info => (vars, res.1, Except.ok (dmergeFields d info))
  else (vars, [], Except.ok d)

/-- The body of the per-listing loop (lines 92-132) for one listing.
`Except.ok none` means the listing was skipped by `continue`;
`Except.ok (some d)` means `d` is appended to the page batch;
`Except.error e` means the exception `e` propagates out of `pull_listings`. -/
def processListing (cfg : PullerConfig) (opts : PullOptions)
    (fetch : String → Nat → Except PyError (List (String × String)))
    (pageNumber : Nat) (li : ListingInput) (vars : LoopVars) :
    LoopVars × List Event × Except PyError (Option PyDict) :=
  match previewPhase opts li with
  | Except.error e => (vars, [], Except.error e)
  | Except.ok none => (vars, [], Except.ok none)
  | Except.ok (some d0) =>
      let du := urlPhase cfg pageNumber li d0 vars
      match detailPhase opts fetch du.1 du.2 with
      | (v2, evs, Except.error e) => (v2, evs, Except.error e)
      | (v2, evs, Except.ok d2) => (v2, evs, Except.ok (some d2))

/-- The per-listing loop over all listings of one page, accumulating the
page batch `data` in order. -/
def listingLoop (cfg : PullerConfig) (opts : PullOptions)
    (fetch : String → Nat → Except PyError (List (String × String)))
    (pageNumber : Nat) :
    List ListingInput → LoopVars → List PyDict →
    LoopVars × List Event × Except PyError (List PyDict)
  | [], vars, acc => (vars, [], Except.ok acc)
  | li :: rest, vars, acc =>
      match processListing cfg opts fetch pageNumber li vars with
      | (v1, evs, Except.error e) => (v1, evs, Except.error e)
      | (v1, evs, Except.ok none) =>
          let r := listingLoop cfg opts fetch pageNumber rest v1 acc
          (r.1, evs ++ r.2.1, r.2.2)
      | (v1, evs, Except.ok (some d)) =>
          let r := listingLoop cfg opts fetch pageNumber rest v1 (acc ++ [d])
          (r.1, evs ++ r.2.1, r.2.2)

/-- How one iteration of the `while True` loop ends. -/
inductive PageStep where
  /-- A `break` was executed before the save (nothing written for this page). -/
  | breakLoop : PageStep
  /-- The page batch was written; the loop may advance. -/
  | wrote : PageStep
  /-- An uncaught exception propagates out of `pull_listings`. -/
  | crash : PyError → PageStep
deriving Repr, DecidableEq

/-- One iteration of the `while True` loop (lines 70-142): fetch the listings
page, run the checks of lines 74-89 in source order (chunked-encoding error,
`get_listings_list` with only `AttributeError` caught, empty listings,
redirect on a page other than number 1), run the per-listing loop, and save
the page batch (header and mode `w` exactly when `page_number == page_start`). -/
def processPage (cfg : PullerConfig) (opts : PullOptions)
    (fetch : String → Nat → Except PyError (List (String × String)))
    (pageNumber : Nat) (pi : PageInput) (vars : LoopVars) :
    LoopVars × List Event × PageStep :=
  if pi.fetchChunkedError then (vars, [], PageStep.breakLoop)
  else
    match pi.listingsResult with
    | Except.error PyError.attrErr => (vars, [], PageStep.breakLoop)
    | Except.error e => (vars, [], PageStep.crash e)
    | Except.ok listings =>
        if listings.isEmpty then (vars, [], PageStep.breakLoop)
        else
          let redirectBreak : Bool :=
            match pi.redirect with
            | some s =>
                (if pageNumber = 1 then false else true) &&
                  (decide (s = 301) || decide (s = 302))
            | none => false
          if redirectBreak then (vars, [], PageStep.breakLoop)
          else
            match listingLoop cfg opts fetch pageNumber listings vars [] with
            | (v1, evs, Except.error e) => (v1, evs, PageStep.crash e)
            | (v1, evs, Except.ok batch) =>
                let mh : Char × Bool :=
                  if pageNumber = opts.page_start then ('w', true) else ('a', false)
                (v1, evs ++ [Event.csvWrite mh.1 mh.2 (outputColumns cfg) batch],
                 PageStep.wrote)

/-- The `while True` loop, with fuel bounding the number of observed
iterations (the Python loop is unbounded when `page_end is None`). -/
def runLoop (cfg : PullerConfig) (opts : PullOptions)
    (fetch : String → Nat → Except PyError (List (String × String)))
    (pages : Nat → PageInput) :
    Nat → Nat → LoopVars → List Event × Outcome
  | 0, _, _ => ([], Outcome.fuelOut)
  | Nat.succ f, pageNumber, vars =>
      match processPage cfg opts fetch pageNumber (pages pageNumber) vars with
      | (_, evs, PageStep.breakLoop) => (evs, Outcome.finished)
      | (_, evs, PageStep.crash e) => (evs, Outcome.crashed e)
      | (v1, evs, PageStep.wrote) =>
          match opts.page_end with
          | some pe =>
              if pageNumber ≥ pe then (evs, Outcome.finished)
              else
                let r := runLoop cfg opts fetch pages f (pageNumber + 1) v1
                (evs ++ r.1, r.2)
          | none =>
              let r := runLoop cfg opts fetch pages f (pageNumber + 1) v1
              (evs ++ r.1, r.2)

/-- `PropertyListingsPuller.pull_listings`: the whole crawl, starting at
`page_start` with both loop locals unbound. -/
def pull_listings (cfg : PullerConfig) (opts : PullOptions)
    (fetch : String → Nat → Except PyError (List (String × String)))
    (pages : Nat → PageInput) (fuel : Nat) : List Event × Outcome :=
  runLoop cfg opts fetch pages fuel opts.page_start {}

/-!
## Model of the column check in `OlxListingsPuller.process_data`

Only the column-layout part (lines 144-154 of
`property_web_scraper/olx/olx_listings_puller.py`) is embedded; the
unit-stripping assignments of lines 134-142 touch columns that are already in
the fixed base list and do not affect which columns exist outside it.
No method of any crawl loop in the repository calls `process_data`.
-/

/-- The fixed leading column order of `OlxListingsPuller.process_data`
(line 145). -/
def olxBaseColumns : List String :=
  ["title", "price", "price_num", "latitude", "longitude", "status",
   "listing_page_category"]

/-- Line 145-147: `columns_order` is the base list, then every translation
value not already in the base list, then `url`. -/
def olxColumnsOrder (translationValues : List String) : List String :=
  olxBaseColumns ++
    translationValues.filter (fun t => !(olxBaseColumns.contains t)) ++ ["url"]

/-- Lines 148-154: add every column of `columns_order` missing from the data
as an empty column, then raise `RuntimeError` naming the columns of the data
that are outside `columns_order`; on success the data is reordered to
`columns_order`. -/
def olx_process_data_columns (translationValues : List String)
    (dataColumns : List String) : Except PyError (List String) :=
  let order := olxColumnsOrder translationValues
  let cols := dataColumns ++ order.filter (fun c => !(dataColumns.contains c))
  let missed := cols.filter (fun c => !(order.contains c))
  if missed.isEmpty then Except.ok order
  else Except.error (PyError.runtimeErr ("Missing columns: " ++ toString missed))

/-!
## Model of the confirmation prompts in `data/pull_listings.py`

`PullPropertyListings` is the script-level variant of the crawler.  Only its
destination-file preamble is embedded here (the prompts and the removal);
the claims about it concern exactly this part.
-/

/-- Lines 52-55 of `data/pull_listings.py` (`pull_listing_categories`): when
the destination file already exists, prompt for confirmation and then remove
the file. -/
def pull_listing_categories_preamble (data_write_path : String)
    (fileExists : Bool) : List Event :=
  if fileExists then
    [Event.prompt ("WARNING: data will overwrite the existing data file at " ++
       data_write_path ++ ". Press enter to continue."),
     Event.removeFile]
  else []

/-- Lines 99-105 of `data/pull_listings.py` (`PullPropertyListings.pull_listings`):
when the overwrite warning is not suppressed and the destination exists,
prompt before appending (mode `a`) or before overwriting (mode `w`). -/
def data_pull_listings_preamble (data_write_path : String)
    (suppress_overwrite_warning : Bool) (fileExists : Bool) (mode : Char) :
    List Event :=
  if !suppress_overwrite_warning && fileExists then
    if mode = 'a' then
      [Event.prompt ("WARNING: data will append to the existing data file at " ++
         data_write_path ++ ". Press enter to continue.")]
    else if mode = 'w' then
      [Event.prompt ("WARNING: data will overwrite the existing data file at " ++
         data_write_path ++ ". Press enter to continue.")]
    else []
  else []

/-!
## Helper lemmas about the crawl trace
-/

/-- Unfolding lemma for one attempt of the retry loop. -/
lemma detailRetry_succ (fetch : String → Nat → Except PyError (List (String × String)))
    (url : String) (attempt r : Nat) :
    detailRetry fetch url attempt (r + 1) =
      match fetch url attempt with
      | Except.ok fields => ([], some fields)
      | Except.error e =>
          (Event.logWrite (skipLogMessage url e) :: (detailRetry fetch url (attempt + 1) r).1,
           (detailRetry fetch url (attempt + 1) r).2) := by
  cases hf : fetch url attempt <;> simp [detailRetry, hf]

/-- Every event emitted by the retry loop is an error-log write. -/
lemma detailRetry_events (fetch : String → Nat → Except PyError (List (String × String)))
    (url : String) :
    ∀ remaining attempt, ∀ e ∈ (detailRetry fetch url attempt remaining).1,
      ∃ s, e = Event.logWrite s := by
  intro remaining
  induction remaining with
  | zero => intro attempt e he; simp [detailRetry] at he
  | succ r ih =>
      intro attempt e he
      rw [detailRetry_succ] at he
      cases hf : fetch url attempt with
      | ok fields => rw [hf] at he; simp at he
      | error err =>
          rw [hf] at he
          rcases List.mem_cons.mp he with he | he
          · exact ⟨_, he⟩
          · exact ih (attempt + 1) e he

/-- The detail phase emits either nothing or exactly the retry-loop log of
some URL. -/
lemma detailPhase_events_eq (opts : PullOptions)
    (fetch : String → Nat → Except PyError (List (String × String)))
    (d : PyDict) (vars : LoopVars) :
    (detailPhase opts fetch d vars).2.1 = [] ∨
    ∃ url, (detailPhase opts fetch d vars).2.1 = (detailRetry fetch url 1 20).1 := by
  unfold detailPhase
  cases hgp : opts.get_listing_pages
  · simp
  · cases hv : vars.single_listing_url with
    | none => simp
    | some u =>
        cases u with
        | none => simp
        | some url =>
            by_cases hemp : url.isEmpty
            · simp [hemp]
            · right
              refine ⟨url, ?_⟩
              simp only [hemp, Bool.false_eq_true, if_false]
              cases h2 : (detailRetry fetch url 1 20).2 with
              | some fields => simp [h2]
              | none =>
                  cases hinfo : vars.single_listing_info <;> simp [h2, hinfo]

/-- Every event emitted by the detail phase is an error-log write. -/
lemma detailPhase_events (opts : PullOptions)
    (fetch : String → Nat → Except PyError (List (String × String)))
    (d : PyDict) (vars : LoopVars) :
    ∀ e ∈ (detailPhase opts fetch d vars).2.1, ∃ s, e = Event.logWrite s := by
  intro e he
  rcases detailPhase_events_eq opts fetch d vars with h | ⟨url, h⟩
  · rw [h] at he; simp at he
  · rw [h] at he; exact detailRetry_events fetch url 20 1 e he

/-- The per-listing body emits either nothing or exactly the events of its
detail phase. -/
lemma processListing_events_eq (cfg : PullerConfig) (opts : PullOptions)
    (fetch : String → Nat → Except PyError (List (String × String)))
    (pageNumber : Nat) (li : ListingInput) (vars : LoopVars) :
    (processListing cfg opts fetch pageNumber li vars).2.1 = [] ∨
    ∃ d v, (processListing cfg opts fetch pageNumber li vars).2.1 =
      (detailPhase opts fetch d v).2.1 := by
  unfold processListing
  cases hp : previewPhase opts li with
  | error err => simp
  | ok od =>
      cases od with
      | none => simp
      | some d0 =>
          right
          refine ⟨(urlPhase cfg pageNumber li d0 vars).1,
                  (urlPhase cfg pageNumber li d0 vars).2, ?_⟩
          rcases hd : detailPhase opts fetch (urlPhase cfg pageNumber li d0 vars).1
              (urlPhase cfg pageNumber li d0 vars).2 with ⟨v2, evs, r⟩
          cases r <;> simp [hd]

/-- Every event emitted by the per-listing body is an error-log write. -/
lemma processListing_events (cfg : PullerConfig) (opts : PullOptions)
    (fetch : String → Nat → Except PyError (List (String × String)))
    (pageNumber : Nat) (li : ListingInput) (vars : LoopVars) :
    ∀ e ∈ (processListing cfg opts fetch pageNumber li vars).2.1,
      ∃ s, e = Event.logWrite s := by
  intro e he
  rcases processListing_events_eq cfg opts fetch pageNumber li vars with h | ⟨d, v, h⟩
  · rw [h] at he; simp at he
  · rw [h] at he; exact detailPhase_events opts fetch d v e he

/-- Every event emitted by the per-listing loop is an error-log write. -/
lemma listingLoop_events (cfg : PullerConfig) (opts : PullOptions)
    (fetch : String → Nat → Except PyError (List (String × String)))
    (pageNumber : Nat) :
    ∀ ls vars acc, ∀ e ∈ (listingLoop cfg opts fetch pageNumber ls vars acc).2.1,
      ∃ s, e = Event.logWrite s := by
  intro ls
  induction ls with
  | nil => intro vars acc e he; simp [listingLoop] at he
  | cons li rest ih =>
      intro vars acc e he
      rcases hpl : processListing cfg opts fetch pageNumber li vars with ⟨v1, evs, r⟩
      have hev : ∀ x ∈ evs, ∃ s, x = Event.logWrite s := fun x hx =>
        processListing_events cfg opts fetch pageNumber li vars x (by rw [hpl]; exact hx)
      cases r with
      | error err =>
          simp only [listingLoop, hpl] at he
          exact hev e he
      | ok od =>
          cases od with
          | none =>
              simp only [listingLoop, hpl] at he
              rcases List.mem_append.mp he with h1 | h1
              · exact hev e h1
              · exact ih v1 acc e h1
          | some d =>
              simp only [listingLoop, hpl] at he
              rcases List.mem_append.mp he with h1 | h1
              · exact hev e h1
              · exact ih v1 (acc ++ [d]) e h1

/-- Every event emitted while processing one page is an error-log write or
the single CSV write of that page, whose column layout is always
`outputColumns cfg` and whose mode/header pair is `w`/header exactly on the
start page. -/
lemma processPage_events (cfg : PullerConfig) (opts : PullOptions)
    (fetch : String → Nat → Except PyError (List (String × String)))
    (pageNumber : Nat) (pi : PageInput) (vars : LoopVars) :
    ∀ e ∈ (processPage cfg opts fetch pageNumber pi vars).2.1,
      (∃ s, e = Event.logWrite s) ∨
      (pageNumber = opts.page_start ∧
        ∃ b, e = Event.csvWrite 'w' true (outputColumns cfg) b) ∨
      (pageNumber ≠ opts.page_start ∧
        ∃ b, e = Event.csvWrite 'a' false (outputColumns cfg) b) := by
  intro e he
  unfold processPage at he
  cases hc : pi.fetchChunkedError
  · rw [hc] at he
    simp only [Bool.false_eq_true, if_false] at he
    cases hr : pi.listingsResult with
    | error err => cases err <;> simp [hr] at he
    | ok listings =>
        rw [hr] at he
        simp only at he
        by_cases hemp : listings.isEmpty = true
        · simp [hemp] at he
        · simp only [hemp, Bool.false_eq_true, if_false] at he
          generalize hrb : (match pi.redirect with
            | some s =>
                (if pageNumber = 1 then false else true) &&
                  (decide (s = 301) || decide (s = 302))
            | none => false) = rb at he
          cases rb
          · simp only [Bool.false_eq_true, if_false] at he
            rcases hll : listingLoop cfg opts fetch pageNumber listings vars []
              with ⟨v1, evs, r⟩
            have hev : ∀ x ∈ evs, ∃ s, x = Event.logWrite s := fun x hx =>
              listingLoop_events cfg opts fetch pageNumber listings vars [] x
                (by rw [hll]; exact hx)
            cases r with
            | error err =>
                rw [hll] at he
                simp only at he
                exact Or.inl (hev e he)
            | ok batch =>
                rw [hll] at he
                simp only at he
                by_cases hps : pageNumber = opts.page_start
                · simp only [hps, if_pos rfl] at he
                  rcases List.mem_append.mp he with h1 | h1
                  · exact Or.inl (hev e h1)
                  · rcases List.mem_singleton.mp h1 with rfl
                    exact Or.inr (Or.inl ⟨hps, batch, rfl⟩)
                · simp only [if_neg hps] at he
                  rcases List.mem_append.mp he with h1 | h1
                  · exact Or.inl (hev e h1)
                  · rcases List.mem_singleton.mp h1 with rfl
                    exact Or.inr (Or.inr ⟨hps, batch, rfl⟩)
          · simp at he
  · rw [hc] at he
    simp at he

/-- Every event in a crawl trace is an error-log write or a CSV write with
the canonical column layout; header writes use mode `w`, headerless writes
mode `a`. -/
lemma runLoop_events (cfg : PullerConfig) (opts : PullOptions)
    (fetch : String → Nat → Except PyError (List (String × String)))
    (pages : Nat → PageInput) :
    ∀ fuel pageNumber vars,
      ∀ e ∈ (runLoop cfg opts fetch pages fuel pageNumber vars).1,
        (∃ s, e = Event.logWrite s) ∨
        (∃ b, e = Event.csvWrite 'w' true (outputColumns cfg) b) ∨
        (∃ b, e = Event.csvWrite 'a' false (outputColumns cfg) b) := by
  intro fuel
  induction fuel with
  | zero => intro pageNumber vars e he; simp [runLoop] at he
  | succ f ih =>
      intro pageNumber vars e he
      have hpp := processPage_events cfg opts fetch pageNumber (pages pageNumber) vars
      rcases hp : processPage cfg opts fetch pageNumber (pages pageNumber) vars
        with ⟨v1, evs, st⟩
      have hev : ∀ x ∈ evs,
          (∃ s, x = Event.logWrite s) ∨
          (∃ b, x = Event.csvWrite 'w' true (outputColumns cfg) b) ∨
          (∃ b, x = Event.csvWrite 'a' false (outputColumns cfg) b) := by
        intro x hx
        rcases hpp x (by rw [hp]; exact hx) with h | ⟨_, b, hb⟩ | ⟨_, b, hb⟩
        · exact Or.inl h
        · exact Or.inr (Or.inl ⟨b, hb⟩)
        · exact Or.inr (Or.inr ⟨b, hb⟩)
      cases st with
      | breakLoop =>
          simp only [runLoop, hp] at he
          exact hev e he
      | crash err =>
          simp only [runLoop, hp] at he
          exact hev e he
      | wrote =>
          cases hpe : opts.page_end with
          | some pe =>
              by_cases hge : pageNumber ≥ pe
              · simp only [runLoop, hp, hpe, if_pos hge] at he
                exact hev e he
              · simp only [runLoop, hp, hpe, if_neg hge] at he
                rcases List.mem_append.mp he with h1 | h1
                · exact hev e h1
                · exact ih (pageNumber + 1) v1 e h1
          | none =>
              simp only [runLoop, hp, hpe] at he
              rcases List.mem_append.mp he with h1 | h1
              · exact hev e h1
              · exact ih (pageNumber + 1) v1 e h1

/-- The rendered CSV row has one entry per column. -/
lemma renderRow_length (columns : List String) (d : PyDict) :
    (renderRow columns d).length = columns.length := by
  simp [renderRow]

/-- Entry lookup in a rendered row. -/
lemma renderRow_get? (columns : List String) (d : PyDict) (i : Nat) :
    (renderRow columns d).get? i =
      (columns.get? i).map (fun c =>
        match dget d c with
        | some (some v) => v
        | _ => "") := by
  simp [renderRow, List.getElem?_map]

/-- A column absent from the listing dict renders as the empty value. -/
lemma renderRow_missing (columns : List String) (d : PyDict) (i : Nat) (c : String)
    (hc : columns.get? i = some c) (hd : dget d c = none) :
    (renderRow columns d).get? i = some ("") := by
  rw [renderRow_get?, hc]
  simp [hd]

/-- Every value of a rendered row is either empty or the value the dict holds
at some canonical column: fields outside the column layout never reach the
file. -/
lemma renderRow_mem (columns : List String) (d : PyDict) :
    ∀ v ∈ renderRow columns d, v = "" ∨ ∃ c ∈ columns, dget d c = some (some v) := by
  intro v hv
  obtain ⟨c, hc, hfc⟩ := List.mem_map.mp hv
  cases hd : dget d c with
  | none => left; rw [← hfc]; simp [hd]
  | some o =>
      cases o with
      | none => left; rw [← hfc]; simp [hd]
      | some w =>
          right
          rw [hd] at hfc
          simp only at hfc
          exact ⟨c, hc, by rw [hd, hfc]⟩

/-!
## Claim theorems
-/

/-- C6: the UrlResolver contract of `convert_relative_url`: an absent or
empty candidate yields "no URL" (`none`) without error; a candidate with no
host component yields the root URL concatenated with the candidate; a
candidate whose host equals the root's host is returned unchanged; a
candidate with any other host raises `ValueError`. -/
theorem convert_relative_url_contract (root u : String) :
    convert_relative_url root none = Except.ok none ∧
    convert_relative_url root (some ("")) = Except.ok none ∧
    (u ≠ "" → urlparseHostname u = none →
      convert_relative_url root (some u) = Except.ok (some (root ++ u))) ∧
    (∀ h, u ≠ "" → urlparseHostname u = some h → urlparseHostname root = some h →
      convert_relative_url root (some u) = Except.ok (some u)) ∧
    (∀ h, u ≠ "" → urlparseHostname u = some h → urlparseHostname root ≠ some h →
      convert_relative_url root (some u) =
        Except.error (PyError.valueErr ("URL does not match site URL: " ++ u))) := by
  refine ⟨rfl, by simp [convert_relative_url], ?_, ?_, ?_⟩
  · intro hne hh
    simp [convert_relative_url, hne, hh]
  · intro h hne hh hr
    simp [convert_relative_url, hne, hh, hr]
  · intro h hne hh hr
    simp [convert_relative_url, hne, hh, hr]

/-- Witness for C6: the three interesting branches at concrete inputs. -/
theorem convert_relative_url_contract_witness :
    convert_relative_url ("http://a") (some ("/x")) =
      Except.ok (some ("http://a" ++ "/x")) ∧
    convert_relative_url ("http://a") (some ("http://a/y")) =
      Except.ok (some ("http://a/y")) ∧
    convert_relative_url ("http://a") (some ("http://b/x")) =
      Except.error (PyError.valueErr ("URL does not match site URL: " ++ "http://b/x")) := by
  refine ⟨?_, ?_, ?_⟩
  · exact (convert_relative_url_contract ("http://a") ("/x")).2.2.1
      (by decide) (by decide)
  · exact (convert_relative_url_contract ("http://a") ("http://a/y")).2.2.2.1
      ("a") (by decide) (by decide) (by decide)
  · exact (convert_relative_url_contract ("http://a") ("http://b/x")).2.2.2.2
      ("b") (by decide) (by decide) (by decide)

/-- C7: a listings page with zero listings, or whose expected container
cannot be located (`get_listings_list` raises `AttributeError`), terminates
the crawl gracefully at that page: the loop breaks with outcome `finished`
(not an error) and emits no event from that page on — in particular no empty
page batch and no header-only write. -/
theorem pull_listings_empty_page_stops (cfg : PullerConfig) (opts : PullOptions)
    (fetch : String → Nat → Except PyError (List (String × String)))
    (pages : Nat → PageInput) (f p : Nat) (vars : LoopVars)
    (hchunk : (pages p).fetchChunkedError = false)
    (hempty : (pages p).listingsResult = Except.ok [] ∨
      (pages p).listingsResult = Except.error PyError.attrErr) :
    runLoop cfg opts fetch pages (f + 1) p vars = ([], Outcome.finished) := by
  have hpp : processPage cfg opts fetch p (pages p) vars =
      (vars, [], PageStep.breakLoop) := by
    unfold processPage
    rw [hchunk]
    rcases hempty with h | h <;> simp [h]
  simp [runLoop, hpp]

/-- Witness for C7: a concrete run whose first page has zero listings. -/
theorem pull_listings_empty_page_stops_witness :
    runLoop ⟨"http://a", "page", ["title"]⟩ ⟨true, true, 1, none⟩
      (fun _ _ => Except.error (PyError.other "x"))
      (fun _ => ⟨false, Except.ok [], none⟩) 1 1 ⟨none, none⟩ =
      ([], Outcome.finished) :=
  pull_listings_empty_page_stops ⟨"http://a", "page", ["title"]⟩ ⟨true, true, 1, none⟩
    (fun _ _ => Except.error (PyError.other "x"))
    (fun _ => ⟨false, Except.ok [], none⟩) 0 1 ⟨none, none⟩ rfl (Or.inl rfl)

/-- C1: in every crawl run of `pull_listings`, every row written to the CSV
(on every page, first or subsequent) is laid out by exactly the canonical
columns `data_columns ++ [Page, URL]` fixed at construction, in that order,
and any canonical column absent from a listing's extracted dict renders as
the empty value in that listing's row. -/
theorem pull_listings_canonical_rows (cfg : PullerConfig) (opts : PullOptions)
    (fetch : String → Nat → Except PyError (List (String × String)))
    (pages : Nat → PageInput) (fuel : Nat) :
    ∀ e ∈ (pull_listings cfg opts fetch pages fuel).1,
      ∀ m h cs b, e = Event.csvWrite m h cs b →
        cs = outputColumns cfg ∧
        ∀ d ∈ b, (renderRow cs d).length = cs.length ∧
          ∀ i c, cs.get? i = some c → dget d c = none →
            (renderRow cs d).get? i = some ("") := by
  intro e he m h cs b hcs
  simp only [pull_listings] at he
  have hev := runLoop_events cfg opts fetch pages fuel opts.page_start ⟨none, none⟩ e he
  constructor
  · rcases hev with ⟨s, hs⟩ | ⟨b', hb⟩ | ⟨b', hb⟩
    · rw [hcs] at hs; cases hs
    · rw [hcs] at hb
      simp only [Event.csvWrite.injEq] at hb
      exact hb.2.2.1
    · rw [hcs] at hb
      simp only [Event.csvWrite.injEq] at hb
      exact hb.2.2.1
  · intro d _
    exact ⟨renderRow_length cs d, fun i c hc hdc => renderRow_missing cs d i c hc hdc⟩

/-- Witness for C1: a run whose canonical column `desc` is missing from the
one extracted listing; its row renders the empty value at that column. -/
theorem pull_listings_canonical_rows_witness :
    (["title", "desc", "Page", "URL"] : List String) =
      outputColumns ⟨"http://a", "page", ["title", "desc"]⟩ ∧
    (renderRow ["title", "desc", "Page", "URL"]
        [("title", some ("T")), ("Page", some ("1")), ("URL", some ("http://a/x"))]).get? 1 =
      some ("") := by
  have h := pull_listings_canonical_rows ⟨"http://a", "page", ["title", "desc"]⟩
      ⟨true, false, 1, some 1⟩ (fun _ _ => Except.error (PyError.other "x"))
      (fun _ => ⟨false,
        Except.ok [⟨Except.ok [("title", "T")], Except.ok (some ("/x"))⟩], none⟩) 2
      (Event.csvWrite 'w' true ["title", "desc", "Page", "URL"]
        [[("title", some ("T")), ("Page", some ("1")), ("URL", some ("http://a/x"))]])
      (by decide) 'w' true (["title", "desc", "Page", "URL"])
      ([[("title", some ("T")), ("Page", some ("1")), ("URL", some ("http://a/x"))]]) rfl
  refine ⟨h.1, ?_⟩
  exact (h.2 _ (by decide)).2 1 ("desc") (by decide) (by decide)

/-- C10: in every page batch written by `pull_listings`, for every
configuration, the crawl-metadata columns `Page` and `URL` are the final two
columns of the output, in that order, after all canonical data columns. -/
theorem pull_listings_metadata_columns_last (cfg : PullerConfig)
    (opts : PullOptions)
    (fetch : String → Nat → Except PyError (List (String × String)))
    (pages : Nat → PageInput) (fuel : Nat) :
    ∀ e ∈ (pull_listings cfg opts fetch pages fuel).1,
      ∀ m h cs b, e = Event.csvWrite m h cs b →
        cs.take cfg.data_columns.length = cfg.data_columns ∧
        cs.drop cfg.data_columns.length = ["Page", "URL"] := by
  intro e he m h cs b hcs
  simp only [pull_listings] at he
  have hev := runLoop_events cfg opts fetch pages fuel opts.page_start ⟨none, none⟩ e he
  have hco : cs = outputColumns cfg := by
    rcases hev with ⟨s, hs⟩ | ⟨b', hb⟩ | ⟨b', hb⟩
    · rw [hcs] at hs; cases hs
    · rw [hcs] at hb
      simp only [Event.csvWrite.injEq] at hb
      exact hb.2.2.1
    · rw [hcs] at hb
      simp only [Event.csvWrite.injEq] at hb
      exact hb.2.2.1
  subst hco
  unfold outputColumns
  exact ⟨List.take_left cfg.data_columns ["Page", "URL"],
         List.drop_left cfg.data_columns ["Page", "URL"]⟩

/-- Witness for C10 at a concrete one-page run. -/
theorem pull_listings_metadata_columns_last_witness :
    (["title", "Page", "URL"] : List String).take 1 = ["title"] ∧
    (["title", "Page", "URL"] : List String).drop 1 = ["Page", "URL"] :=
  pull_listings_metadata_columns_last ⟨"http://a", "page", ["title"]⟩
    ⟨true, false, 1, some 1⟩ (fun _ _ => Except.error (PyError.other "x"))
    (fun _ => ⟨false,
      Except.ok [⟨Except.ok [("title", "T")], Except.ok (some ("/x"))⟩], none⟩) 2
    (Event.csvWrite 'w' true ["title", "Page", "URL"]
      [[("title", some ("T")), ("Page", some ("1")), ("URL", some ("http://a/x"))]])
    (by decide) 'w' true (["title", "Page", "URL"])
    ([[("title", some ("T")), ("Page", some ("1")), ("URL", some ("http://a/x"))]]) rfl

/-- C2 counterexample: a page batch whose listing carries the field `bogus`,
which is not in the canonical column list `[title]`.  The crawl run completes
with `Outcome.finished` — no error of any kind — and the written row renders
without the unexpected value: `reindex` silently drops it.  This contradicts
the claim that such a batch fails with a fatal schema-drift error. -/
theorem unexpected_field_silently_dropped :
    pull_listings ⟨"http://a", "page", ["title"]⟩ ⟨true, false, 1, some 1⟩
      (fun _ _ => Except.error (PyError.other "x"))
      (fun _ => ⟨false,
        Except.ok [⟨Except.ok [("bogus", "X"), ("title", "T")],
                    Except.ok (some ("/x"))⟩], none⟩) 2 =
      ([Event.csvWrite 'w' true ["title", "Page", "URL"]
          [[("bogus", some ("X")), ("title", some ("T")), ("Page", some ("1")),
            ("URL", some ("http://a/x"))]]],
       Outcome.finished) ∧
    renderRow ["title", "Page", "URL"]
        [("bogus", some ("X")), ("title", some ("T")), ("Page", some ("1")),
         ("URL", some ("http://a/x"))] =
      ["T", "1", "http://a/x"] := by
  decide

/-- C2 amended: a field outside the canonical column list is not fatal: in
`pull_listings` the `reindex` silently drops it (every value that reaches the
file comes from a canonical column) and the run continues.  The only check
that raises an error naming the unexpected columns is
`OlxListingsPuller.process_data` (a `RuntimeError`, and `process_data` is
never invoked by any crawl loop in the repository). -/
theorem unexpected_field_dropped_not_fatal (cfg : PullerConfig)
    (opts : PullOptions)
    (fetch : String → Nat → Except PyError (List (String × String)))
    (pages : Nat → PageInput) (fuel : Nat)
    (translationValues dataColumns : List String) (c : String) :
    (∀ e ∈ (pull_listings cfg opts fetch pages fuel).1, ∀ m h cs b,
      e = Event.csvWrite m h cs b → ∀ d ∈ b, ∀ v ∈ renderRow cs d,
        v = "" ∨ ∃ col ∈ outputColumns cfg, dget d col = some (some v)) ∧
    (c ∈ dataColumns → (olxColumnsOrder translationValues).contains c = false →
      ∃ missed, c ∈ missed ∧ missed ≠ [] ∧
        olx_process_data_columns translationValues dataColumns =
          Except.error (PyError.runtimeErr ("Missing columns: " ++ toString missed))) := by
  constructor
  · intro e he m h cs b hcs d _ v hv
    simp only [pull_listings] at he
    have hev := runLoop_events cfg opts fetch pages fuel opts.page_start ⟨none, none⟩ e he
    have hco : cs = outputColumns cfg := by
      rcases hev with ⟨s, hs⟩ | ⟨b', hb⟩ | ⟨b', hb⟩
      · rw [hcs] at hs; cases hs
      · rw [hcs] at hb
        simp only [Event.csvWrite.injEq] at hb
        exact hb.2.2.1
      · rw [hcs] at hb
        simp only [Event.csvWrite.injEq] at hb
        exact hb.2.2.1
    subst hco
    exact renderRow_mem _ d v hv
  · intro hc1 hc2
    refine ⟨dataColumns.filter
      (fun x => !((olxColumnsOrder translationValues).contains x)), ?_, ?_, ?_⟩
    · exact List.mem_filter.mpr ⟨hc1, by rw [hc2]; rfl⟩
    · exact List.ne_nil_of_mem
        (List.mem_filter.mpr ⟨hc1, by rw [hc2]; rfl⟩)
    · have hdrop : ((olxColumnsOrder translationValues).filter
          (fun x => !(dataColumns.contains x))).filter
            (fun x => !((olxColumnsOrder translationValues).contains x)) = [] := by
        apply List.filter_eq_nil_iff.mpr
        intro a ha
        have hmem : a ∈ olxColumnsOrder translationValues :=
          (List.mem_filter.mp ha).1
        simp [hmem]
      have hmissed : (dataColumns ++ (olxColumnsOrder translationValues).filter
          (fun x => !(dataColumns.contains x))).filter
            (fun x => !((olxColumnsOrder translationValues).contains x)) =
          dataColumns.filter
            (fun x => !((olxColumnsOrder translationValues).contains x)) := by
        rw [List.filter_append, hdrop, List.append_nil]
      have hne : dataColumns.filter
          (fun x => !((olxColumnsOrder translationValues).contains x)) ≠ [] :=
        List.ne_nil_of_mem (List.mem_filter.mpr ⟨hc1, by rw [hc2]; rfl⟩)
      simp only [olx_process_data_columns, hmissed, List.isEmpty_eq_false.mpr hne,
        Bool.false_eq_true, if_false]

/-- Witness for the C2 amended theorem: the olx column check fails, naming
the unexpected column `weird`, on a data batch carrying that column. -/
theorem unexpected_field_dropped_not_fatal_witness :
    ∃ missed, ("weird") ∈ missed ∧ missed ≠ [] ∧
      olx_process_data_columns [] ["weird"] =
        Except.error (PyError.runtimeErr ("Missing columns: " ++ toString missed)) :=
  (unexpected_field_dropped_not_fatal ⟨"http://a", "page", ["title"]⟩
    ⟨true, false, 1, some 1⟩ (fun _ _ => Except.error (PyError.other "x"))
    (fun _ => ⟨false, Except.ok [], none⟩) 1 [] ["weird"] ("weird")).2
    (by decide) (by decide)

/-- The preview phase returns an error only when preview extraction itself
raised it and it is not `NotImplementedError`. -/
lemma previewPhase_error (opts : PullOptions) (li : ListingInput) (err : PyError)
    (h : previewPhase opts li = Except.error err) :
    li.previewResult = Except.error err ∧ err ≠ PyError.notImplemented := by
  unfold previewPhase at h
  cases hgp : opts.get_listing_previews <;> rw [hgp] at h
  · simp at h
  · cases hpr : li.previewResult with
    | ok fields => rw [hpr] at h; simp at h
    | error e0 =>
        rw [hpr] at h
        cases e0 <;> simp_all
        all_goals (rw [← h]; simp)

/-- The detail phase can only fail with the two `UnboundLocalError`s on the
stale loop locals; every fetch/extraction error inside the retry loop is
caught. -/
lemma detailPhase_error (opts : PullOptions)
    (fetch : String → Nat → Except PyError (List (String × String)))
    (d : PyDict) (vars : LoopVars) (e : PyError)
    (h : (detailPhase opts fetch d vars).2.2 = Except.error e) :
    e = PyError.unboundLocal ("single_listing_url") ∨
    e = PyError.unboundLocal ("single_listing_info") := by
  unfold detailPhase at h
  cases hgp : opts.get_listing_pages <;> rw [hgp] at h
  · simp at h
  · cases hv : vars.single_listing_url with
    | none => rw [hv] at h; simp at h; exact Or.inl h.symm
    | some u =>
        rw [hv] at h
        cases u with
        | none => simp at h
        | some url =>
            by_cases hemp : url.isEmpty = true
            · simp [hemp] at h
            · simp only [hemp, Bool.false_eq_true, if_false] at h
              cases h2 : (detailRetry fetch url 1 20).2 with
              | some fields => simp [h2] at h
              | none =>
                  cases hinfo : vars.single_listing_info with
                  | none =>
                      simp [h2, hinfo] at h
                      exact Or.inr h.symm
                  | some info => simp [h2, hinfo] at h

/-- C4 counterexample: a listing whose preview extraction raises an ordinary
error (not `NotImplementedError`) crashes the whole crawl: the error
propagates out of `pull_listings` instead of being caught inside the
per-listing loop. -/
theorem preview_error_propagates :
    pull_listings ⟨"http://a", "page", ["title"]⟩ ⟨true, false, 1, some 1⟩
      (fun _ _ => Except.error (PyError.other "x"))
      (fun _ => ⟨false,
        Except.ok [⟨Except.error (PyError.other "boom"), Except.ok (some ("/x"))⟩],
        none⟩) 2 =
      ([], Outcome.crashed (PyError.other "boom")) := by
  decide

/-- C4 amended: inside the per-listing body, only `NotImplementedError`
raised by preview extraction is caught (the listing is skipped and the loop
proceeds); detail fetch/extraction errors are all caught inside the retry
loop; the only errors that propagate out of the per-listing body are a
preview error other than `NotImplementedError` and the two
`UnboundLocalError`s on the stale loop locals. -/
theorem per_listing_error_policy (cfg : PullerConfig) (opts : PullOptions)
    (fetch : String → Nat → Except PyError (List (String × String)))
    (pageNumber : Nat) (li : ListingInput) (vars : LoopVars) :
    (opts.get_listing_previews = true →
      li.previewResult = Except.error PyError.notImplemented →
      processListing cfg opts fetch pageNumber li vars = (vars, [], Except.ok none)) ∧
    (∀ v evs e, processListing cfg opts fetch pageNumber li vars =
        (v, evs, Except.error e) →
      (li.previewResult = Except.error e ∧ e ≠ PyError.notImplemented) ∨
      e = PyError.unboundLocal ("single_listing_url") ∨
      e = PyError.unboundLocal ("single_listing_info")) := by
  constructor
  · intro hgp hpr
    simp [processListing, previewPhase, hgp, hpr]
  · intro v evs e hpe
    unfold processListing at hpe
    cases hp : previewPhase opts li with
    | error err =>
        rw [hp] at hpe
        simp only [Prod.mk.injEq] at hpe
        have herr : err = e := by
          have := hpe.2.2
          simpa using this
        left
        rcases previewPhase_error opts li err hp with ⟨h1, h2⟩
        rw [herr] at h1 h2
        exact ⟨h1, h2⟩
    | ok od =>
        cases od with
        | none => rw [hp] at hpe; simp at hpe
        | some d0 =>
            rw [hp] at hpe
            simp only at hpe
            rcases hd : detailPhase opts fetch
                (urlPhase cfg pageNumber li d0 vars).1
                (urlPhase cfg pageNumber li d0 vars).2 with ⟨v2, evs2, r⟩
            rw [hd] at hpe
            cases r with
            | ok d2 => simp at hpe
            | error err =>
                simp only [Prod.mk.injEq] at hpe
                have herr : err = e := by
                  have := hpe.2.2
                  simpa using this
                right
                have : (detailPhase opts fetch
                    (urlPhase cfg pageNumber li d0 vars).1
                    (urlPhase cfg pageNumber li d0 vars).2).2.2 =
                    Except.error err := by rw [hd]
                rw [herr] at this
                exact detailPhase_error opts fetch _ _ e this

/-- Witness for the C4 amended theorem: a listing whose preview raises
`NotImplementedError` is skipped cleanly (`continue`). -/
theorem per_listing_error_policy_witness :
    processListing ⟨"http://a", "page", ["title"]⟩ ⟨true, false, 1, some 1⟩
      (fun _ _ => Except.error (PyError.other "x")) 1
      ⟨Except.error PyError.notImplemented, Except.ok (some ("/x"))⟩
      ⟨none, none⟩ =
      (⟨none, none⟩, [], Except.ok none) :=
  (per_listing_error_policy ⟨"http://a", "page", ["title"]⟩ ⟨true, false, 1, some 1⟩
    (fun _ _ => Except.error (PyError.other "x")) 1
    ⟨Except.error PyError.notImplemented, Except.ok (some ("/x"))⟩
    ⟨none, none⟩).1 rfl rfl

/-- C3 evaluation at the failing input (code bug).  One page with listings A
and B: A's detail step succeeds with field `desc = DA`; B's detail step fails
on all 20 attempts.  Every failed attempt is appended to the error log with
B's URL and the failure detail (the part of the claim that holds), but B's
record is then written with A's detail field `desc = DA` merged in, because
`single_listing_info` is never reset between listings (line 129 merges the
stale value).  Second conjunct: when the FIRST listing of a run fails all 20
attempts, `single_listing_info` is unbound and the whole crawl crashes with
`UnboundLocalError` instead of continuing to the next listing. -/
theorem stale_detail_fields_leak :
    pull_listings ⟨"http://s", "page", ["title", "desc"]⟩ ⟨true, true, 1, some 1⟩
      (fun u _ => if u = "http://s/a" then Except.ok [("desc", "DA")]
                  else Except.error (PyError.other "net"))
      (fun _ => ⟨false,
        Except.ok [⟨Except.ok [("title", "A")], Except.ok (some ("/a"))⟩,
                   ⟨Except.ok [("title", "B")], Except.ok (some ("/b"))⟩],
        none⟩) 2 =
      (List.replicate 20
          (Event.logWrite ("\nSkipping listing due to error: http://s/b\nnet")) ++
        [Event.csvWrite 'w' true ["title", "desc", "Page", "URL"]
          [[("title", some ("A")), ("Page", some ("1")), ("URL", some ("http://s/a")),
            ("desc", some ("DA"))],
           [("title", some ("B")), ("Page", some ("1")), ("URL", some ("http://s/b")),
            ("desc", some ("DA"))]]],
       Outcome.finished) ∧
    pull_listings ⟨"http://s", "page", ["title", "desc"]⟩ ⟨true, true, 1, some 1⟩
      (fun _ _ => Except.error (PyError.other "net"))
      (fun _ => ⟨false,
        Except.ok [⟨Except.ok [("title", "B")], Except.ok (some ("/b"))⟩],
        none⟩) 2 =
      (List.replicate 20
          (Event.logWrite ("\nSkipping listing due to error: http://s/b\nnet")),
       Outcome.crashed (PyError.unboundLocal ("single_listing_info"))) := by
  constructor <;> decide

/-- C5 evaluation at the failing input (code bug).  The only listing's URL
candidate `http://b/x` has host `b`, different from the root host `a`:
`convert_relative_url` raises `ValueError`, the error is caught and only
printed, but the listing is NOT excluded — `single_listing_url` still holds
the raw off-site URL, so the detail page is fetched from the off-site host
(the detail oracle returns `stolen = S` only for `http://b/x`) and a row for
the listing is written (with the off-site page's field and no URL value).
The claim says no row is written for such a listing. -/
theorem offsite_listing_still_recorded :
    pull_listings ⟨"http://a", "page", ["title"]⟩ ⟨true, true, 1, some 1⟩
      (fun u _ => if u = "http://b/x" then Except.ok [("stolen", "S")]
                  else Except.error (PyError.other "nope"))
      (fun _ => ⟨false,
        Except.ok [⟨Except.ok [("title", "T")], Except.ok (some ("http://b/x"))⟩],
        none⟩) 2 =
      ([Event.csvWrite 'w' true ["title", "Page", "URL"]
          [[("title", some ("T")), ("Page", some ("1")), ("stolen", some ("S"))]]],
       Outcome.finished) := by
  decide

/-- C8 counterexample: with `page_start = 2`, a 301 redirect on the very
first page fetched (page number 2) is NOT tolerated: the crawl terminates
immediately with nothing written, although the page had a processable
listing — the same input without the redirect writes the page.  The code
tolerates redirects only on page NUMBER 1 (`page_number != 1`), not on the
first page fetched. -/
theorem redirect_on_first_fetched_page_ends_crawl :
    pull_listings ⟨"http://a", "page", ["title"]⟩ ⟨true, false, 2, some 2⟩
      (fun _ _ => Except.error (PyError.other "x"))
      (fun _ => ⟨false,
        Except.ok [⟨Except.ok [("title", "T")], Except.ok (some ("/x"))⟩],
        some 301⟩) 2 =
      ([], Outcome.finished) ∧
    pull_listings ⟨"http://a", "page", ["title"]⟩ ⟨true, false, 2, some 2⟩
      (fun _ _ => Except.error (PyError.other "x"))
      (fun _ => ⟨false,
        Except.ok [⟨Except.ok [("title", "T")], Except.ok (some ("/x"))⟩],
        none⟩) 2 =
      ([Event.csvWrite 'w' true ["title", "Page", "URL"]
          [[("title", some ("T")), ("Page", some ("2")), ("URL", some ("http://a/x"))]]],
       Outcome.finished) := by
  constructor <;> decide

/-- C8 amended: a redirect (status 301 or 302) observed on any page whose
page NUMBER is not 1 terminates the crawl gracefully before anything is
written for that page; a redirect on page number 1 — not on the first page
fetched — is ignored, the page being processed exactly as if there were no
redirect.  (When `page_start > 1`, a redirect on the very first fetched page
therefore terminates the crawl.) -/
theorem redirect_tolerated_only_on_page_number_one (cfg : PullerConfig)
    (opts : PullOptions)
    (fetch : String → Nat → Except PyError (List (String × String)))
    (p s : Nat) (pi : PageInput) (vars : LoopVars) (ls : List ListingInput)
    (hchunk : pi.fetchChunkedError = false)
    (hls : pi.listingsResult = Except.ok ls) (hne : ls ≠ [])
    (hred : pi.redirect = some s) :
    (p ≠ 1 → s = 301 ∨ s = 302 →
      processPage cfg opts fetch p pi vars = (vars, [], PageStep.breakLoop)) ∧
    (p = 1 →
      processPage cfg opts fetch p pi vars =
        processPage cfg opts fetch p { pi with redirect := none } vars) := by
  have hie : ls.isEmpty = false := List.isEmpty_eq_false.mpr hne
  constructor
  · intro hp1 hs
    unfold processPage
    rw [hchunk, hls, hred]
    rcases hs with rfl | rfl <;> simp [hie, hp1]
  · intro hp1
    subst hp1
    unfold processPage
    simp [hchunk, hls, hred, hie]

/-- Witness for the C8 amended theorem: a 301 redirect on page number 2
breaks the loop with nothing emitted. -/
theorem redirect_tolerated_only_on_page_number_one_witness :
    processPage ⟨"http://a", "page", ["title"]⟩ ⟨true, false, 2, some 2⟩
      (fun _ _ => Except.error (PyError.other "x")) 2
      ⟨false, Except.ok [⟨Except.ok [("title", "T")], Except.ok (some ("/x"))⟩],
        some 301⟩
      ⟨none, none⟩ = (⟨none, none⟩, [], PageStep.breakLoop) :=
  (redirect_tolerated_only_on_page_number_one ⟨"http://a", "page", ["title"]⟩
    ⟨true, false, 2, some 2⟩ (fun _ _ => Except.error (PyError.other "x")) 2 301
    ⟨false, Except.ok [⟨Except.ok [("title", "T")], Except.ok (some ("/x"))⟩],
      some 301⟩
    ⟨none, none⟩ [⟨Except.ok [("title", "T")], Except.ok (some ("/x"))⟩]
    rfl rfl (by decide) rfl).1 (by decide) (Or.inl rfl)

/-- C9 counterexample: `PropertyListingsPuller.pull_listings` performs no
confirmation prompt at all, and its first page write opens the destination
with mode `w` — truncating any existing file — so an existing destination is
overwritten without confirmation.  (The interactive prompts exist only in the
script class `PullPropertyListings` of `data/pull_listings.py`.) -/
theorem puller_truncates_without_prompt :
    pull_listings ⟨"http://a", "page", ["title"]⟩ ⟨true, false, 1, some 1⟩
      (fun _ _ => Except.error (PyError.other "x"))
      (fun _ => ⟨false,
        Except.ok [⟨Except.ok [("title", "T")], Except.ok (some ("/x"))⟩],
        none⟩) 2 =
      ([Event.csvWrite 'w' true ["title", "Page", "URL"]
          [[("title", some ("T")), ("Page", some ("1")), ("URL", some ("http://a/x"))]]],
       Outcome.finished) := by
  decide

/-- C9 amended: the confirmation prompts exist only in the script class
`PullPropertyListings` (`data/pull_listings.py`): `pull_listing_categories`
prompts before removing an existing destination, and its `pull_listings`
(when not suppressed) prompts before appending or overwriting an existing
destination.  `PropertyListingsPuller.pull_listings`, in contrast, never
prompts, and every header-bearing write it performs uses the truncating mode
`w` (headerless writes use mode `a`). -/
theorem prompts_only_in_script_variant (path : String) (cfg : PullerConfig)
    (opts : PullOptions)
    (fetch : String → Nat → Except PyError (List (String × String)))
    (pages : Nat → PageInput) (fuel : Nat) :
    pull_listing_categories_preamble path true =
      [Event.prompt ("WARNING: data will overwrite the existing data file at " ++
         path ++ ". Press enter to continue."),
       Event.removeFile] ∧
    data_pull_listings_preamble path false true 'a' =
      [Event.prompt ("WARNING: data will append to the existing data file at " ++
         path ++ ". Press enter to continue.")] ∧
    data_pull_listings_preamble path false true 'w' =
      [Event.prompt ("WARNING: data will overwrite the existing data file at " ++
         path ++ ". Press enter to continue.")] ∧
    (∀ s, Event.prompt s ∉ (pull_listings cfg opts fetch pages fuel).1) ∧
    (∀ e ∈ (pull_listings cfg opts fetch pages fuel).1, ∀ m h cs b,
      e = Event.csvWrite m h cs b →
      (m = 'w' ∧ h = true) ∨ (m = 'a' ∧ h = false)) := by
  refine ⟨rfl, rfl, rfl, ?_, ?_⟩
  · intro s hs
    simp only [pull_listings] at hs
    rcases runLoop_events cfg opts fetch pages fuel opts.page_start ⟨none, none⟩
        (Event.prompt s) hs with ⟨t, ht⟩ | ⟨b, hb⟩ | ⟨b, hb⟩
    · cases ht
    · cases hb
    · cases hb
  · intro e he m h cs b hcs
    simp only [pull_listings] at he
    rcases runLoop_events cfg opts fetch pages fuel opts.page_start ⟨none, none⟩
        e he with ⟨t, ht⟩ | ⟨b', hb⟩ | ⟨b', hb⟩
    · rw [hcs] at ht; cases ht
    · rw [hcs] at hb
      simp only [Event.csvWrite.injEq] at hb
      exact Or.inl ⟨hb.1, hb.2.1⟩
    · rw [hcs] at hb
      simp only [Event.csvWrite.injEq] at hb
      exact Or.inr ⟨hb.1, hb.2.1⟩

/-- Witness for the C9 amended theorem: no prompt occurs in a concrete
one-page crawl of the generic puller. -/
theorem prompts_only_in_script_variant_witness :
    Event.prompt ("continue?") ∉
      (pull_listings ⟨"http://a", "page", ["title"]⟩ ⟨true, false, 1, some 1⟩
        (fun _ _ => Except.error (PyError.other "x"))
        (fun _ => ⟨false,
          Except.ok [⟨Except.ok [("title", "T")], Except.ok (some ("/x"))⟩],
          none⟩) 2).1 :=
  (prompts_only_in_script_variant ("out.csv") ⟨"http://a", "page", ["title"]⟩
    ⟨true, false, 1, some 1⟩ (fun _ _ => Except.error (PyError.other "x"))
    (fun _ => ⟨false,
      Except.ok [⟨Except.ok [("title", "T")], Except.ok (some ("/x"))⟩],
      none⟩) 2).2.2.2.1 ("continue?")
